import Mathlib

/-!
Shallow embedding of the `notify` package: the Poke data model
(`type.go`), the Firestore-backed store (`storage.go`), and the delivery
tunnels (SMS tunnel and logging wrapper).

Time is modelled as `Int` (nanoseconds since an epoch); Go's
`t.After(u)` is the strict comparison `t > u`.  Firestore collections
are association lists from document key to document; a transaction is
modelled all-or-nothing: on any error inside the transaction the state
is returned unchanged.  Fallible underlying calls (the Firestore `Add`,
the Twilio `SendSMS`, the timestamp parse) are injected as explicit
outcome parameters.
-/

namespace Notify

/-- Go `time.Time.After`: strict wall-clock comparison. -/
def timeAfter (t u : Int) : Bool := decide (t > u)

/-- An underlying Go error value (the cause inside a wrapper). -/
inductive GoErr where
  | notFound (msg : String)
  | alreadyExists (msg : String)
  | parseFail (msg : String)
  | other (msg : String)
deriving DecidableEq, Repr

/-- `firePokeStoreErr` from `storage.go`: wraps cause, operation name and
the offending identifier(s). -/
structure FirePokeStoreErr where
  storeErr : GoErr
  errFunc : String
  whereId : String
deriving DecidableEq, Repr

/-- An error value returned by a store operation: either a
`firePokeStoreErr` wrapper or a raw (unwrapped) underlying error. -/
inductive NotifyErr where
  | store (e : FirePokeStoreErr)
  | go (e : GoErr)
deriving DecidableEq, Repr

/-- Whether a returned error is wrapped as a `firePokeStoreErr`. -/
def NotifyErr.isWrapped : NotifyErr → Bool
  | .store _ => true
  | .go _ => false

/-- Whether an error is NotFound-flavored (the wrapper carries a
not-found cause). -/
def NotifyErr.isNotFound : NotifyErr → Bool
  | .store e => match e.storeErr with | .notFound _ => true | _ => false
  | .go e => match e with | .notFound _ => true | _ => false

/-- Status constants from `type.go`. -/
def StatusQueued : String := "Queued"

def StatusDelivered : String := "Delivered"

def StatusUndelivered : String := "Undelievered"

def StatusFailed : String := "Failed"

def StatusError : String := "Error"

/-- The closed engine-owned status vocabulary. -/
def statusVocabulary : List String :=
  [StatusQueued, StatusDelivered, StatusUndelivered, StatusFailed, StatusError]

/-- `Poke` from `type.go`.  `ID` carries the tag `firestore:"-"`: it is
never persisted as a document field, only as the document key. -/
structure Poke where
  ID : String
  Tunnel : String
  To : String
  Subject : String
  Body : String
  DateToSend : Int
  Expiry : Int
deriving DecidableEq, Repr

/-- `ArchivedPoke` from `type.go`; `ID` is likewise not persisted. -/
structure ArchivedPoke where
  ID : String
  Tunnel : String
  To : String
  Expired : Bool
deriving DecidableEq, Repr

/-- `Record` from `type.go`; `ID` is likewise not persisted. -/
structure Record where
  MessageID : String
  ID : String
  Status : String
  TimeStamp : Int
deriving DecidableEq, Repr

/-- Look a key up in a collection (association list keyed by doc id). -/
def lookupKey {α : Type} (l : List (String × α)) (k : String) : Option α :=
  match l with
  | [] => none
  | kv :: t => if kv.1 = k then some kv.2 else lookupKey t k

/-- Remove a key from a collection. -/
def removeKey {α : Type} (l : List (String × α)) (k : String) : List (String × α) :=
  match l with
  | [] => []
  | kv :: t => if kv.1 = k then removeKey t k else kv :: removeKey t k

/-- Set a key in a collection (Firestore `Set`: full-document replace). -/
def setKey {α : Type} (l : List (String × α)) (k : String) (v : α) : List (String × α) :=
  (k, v) :: removeKey l k

/-- The three collections held by `firePokeStore`. -/
structure StoreState where
  pokes : List (String × Poke)
  archived : List (String × ArchivedPoke)
  records : List (String × Record)
deriving DecidableEq, Repr

/-- `firePokeStore.Update` (`storage.go`): inside one transaction, read
the target id first (the read fails with not-found when absent, which
aborts the transaction), otherwise `Set` replaces the full document.
Failures are wrapped with operation `update` and `p.ID`. -/
def Update (s : StoreState) (p : Poke) : Except NotifyErr Poke × StoreState :=
  match lookupKey s.pokes p.ID with
  | none =>
      (.error (.store ⟨.notFound "document not found", "update", p.ID⟩), s)
  | some _ =>
      (.ok p, { s with pokes := setKey s.pokes p.ID { p with ID := "" } })

/-- `firePokeStore.Get` (`storage.go`) restricted to one id: document
lookup failure is wrapped with operation `get` and the ids. -/
def GetOne (s : StoreState) (id : String) : Except NotifyErr Poke :=
  match lookupKey s.pokes id with
  | none => .error (.store ⟨.notFound "document not found", "get", id⟩)
  | some p => .ok { p with ID := id }

/-- `firePokeStore.ListToSend` (`storage.go`): query
`Where date_to_send < time.Now()` with `Limit 1000`; each returned doc
gets its `ID` from the document key. -/
def ListToSend (s : StoreState) (now : Int) : List Poke :=
  (((s.pokes.filter (fun kv => decide (kv.2.DateToSend < now))).take 1000).map
    (fun kv => { kv.2 with ID := kv.1 }))

/-- `firePokeStore.ListExpired` (`storage.go`): query
`Where expiry < time.Now()` with `Limit 1000`. -/
def ListExpired (s : StoreState) (now : Int) : List Poke :=
  (((s.pokes.filter (fun kv => decide (kv.2.Expiry < now))).take 1000).map
    (fun kv => { kv.2 with ID := kv.1 }))

/-- `firePokeStore.CreateRecord` (`storage.go`): `Add` to the record
collection; `addOutcome` injects the underlying `Add` result (fresh doc
id or failure).  On failure the raw error is returned as-is — this
operation does not wrap it in a `firePokeStoreErr`. -/
def CreateRecord (s : StoreState) (addOutcome : Except GoErr String) (r : Record) :
    Except NotifyErr Record × StoreState :=
  match addOutcome with
  | .error e => (.error (.go e), s)
  | .ok newId =>
      (.ok { r with ID := newId }, { s with records := (newId, r) :: s.records })

/-- `firePokeStore.Archive` (`storage.go`): `t := time.Now()` is taken
before the transaction; inside the transaction the poke is read (absent
aborts with not-found), the `ArchivedPoke` is built with
`Expired = t.After(p.Expiry)` and its `ID` left at the zero value,
`tx.Create` persists it at the archive doc keyed by the same `id`
(failing when that key already exists), and the original poke doc is
deleted.  The transaction commits all of this or none of it.  Failures
are wrapped with operation `archive` and the id. -/
def Archive (s : StoreState) (now : Int) (id : String) :
    Except NotifyErr ArchivedPoke × StoreState :=
  match lookupKey s.pokes id with
  | none =>
      (.error (.store ⟨.notFound "document not found", "archive", id⟩), s)
  | some p =>
      let a : ArchivedPoke :=
        { ID := "", Tunnel := p.Tunnel, To := p.To, Expired := timeAfter now p.Expiry }
      match lookupKey s.archived id with
      | some _ =>
          (.error (.store ⟨.alreadyExists "document already exists", "archive", id⟩), s)
      | none =>
          (.ok a,
            { s with
              pokes := removeKey s.pokes id
              archived := (id, a) :: s.archived })

/-- A Twilio exception object (`gotwilio.Exception`): the fields the
send path reads. -/
structure TwilioException where
  Status : Int
  Message : String
  Code : Int
  MoreInfo : String
deriving DecidableEq, Repr

/-- The Twilio response fields the send path reads: the provider status
string and the outcome of `resp.DateUpdateAsTime()` (a parsed timestamp
or a parse error), injected since the wire format is external. -/
structure SmsResponse where
  Status : String
  dateUpdateAsTime : Except GoErr Int
deriving Repr

/-- The outcome of the underlying `t.c.SendSMS` call: a transport-level
error, a provider exception, or a response. -/
inductive SmsCallResult where
  | transportErr (e : GoErr)
  | exception (ex : TwilioException)
  | success (resp : SmsResponse)
deriving Repr

/-- An error value returned by a tunnel `Send`. -/
inductive SendErr where
  | goErr (e : GoErr)
  | twilioExc (ex : TwilioException)
deriving DecidableEq, Repr

/-- The `Error()` string of a `SendErr`, as written by `fmt` verbs. -/
def SendErr.errString : SendErr → String
  | .goErr (.notFound m) => m
  | .goErr (.alreadyExists m) => m
  | .goErr (.parseFail m) => m
  | .goErr (.other m) => m
  | .twilioExc ex => "twilio exception: " ++ ex.MoreInfo

/-- `SMSTunnel.Send`: sets `rec.MessageID = p.ID`, calls the provider
(`outcome`), and then: on a transport error, status `Error`, timestamp
`time.Now()`, the error returned; on a provider exception, status
`ex.MoreInfo`, timestamp `time.Now()`, a formatted exception error
returned; on a response, the timestamp is `resp.DateUpdateAsTime()`
falling back to `time.Now()` on a parse failure, status `resp.Status`,
and the parse error (nil on success) is returned. -/
def SMSTunnel.Send (outcome : SmsCallResult) (now : Int) (p : Poke) :
    Record × Option SendErr :=
  match outcome with
  | .transportErr e =>
      ({ MessageID := p.ID, ID := "", Status := StatusError, TimeStamp := now },
        some (.goErr e))
  | .exception ex =>
      ({ MessageID := p.ID, ID := "", Status := ex.MoreInfo, TimeStamp := now },
        some (.twilioExc ex))
  | .success resp =>
      match resp.dateUpdateAsTime with
      | .error e =>
          ({ MessageID := p.ID, ID := "", Status := resp.Status, TimeStamp := now },
            some (.goErr e))
      | .ok tm =>
          ({ MessageID := p.ID, ID := "", Status := resp.Status, TimeStamp := tm },
            none)

/-- The observable result of one `LogWrapper.Send` call: the returned
record and error, the lines written to the standard-error stream, and
the record collection afterwards. -/
structure WrapperResult where
  recOut : Record
  err : Option GoErr
  stderrLines : List String
  stored : List (String × Record)
deriving DecidableEq, Repr

/-- `LogWrapper.Send`: inside one transaction the wrapped tunnel's
`Send` runs and its record replaces `rec`; a non-nil inner send error is
written to `os.Stderr` with `fmt.Fprintf` and then overwritten by the
result of `tx.Create(ref, rec)` on a fresh record doc (`createOutcome`
injects that underlying result: a fresh doc id, or a failure which
aborts the transaction).  The caller receives the inner record together
with the transaction's error — nil whenever the record write committed,
regardless of the delivery outcome. -/
def LogWrapper.Send (innerSend : Poke → Record × Option SendErr)
    (createOutcome : Except GoErr String)
    (recs : List (String × Record)) (p : Poke) : WrapperResult :=
  let inner := innerSend p
  let diag : List String :=
    match inner.2 with
    | some e => [SendErr.errString e]
    | none => []
  match createOutcome with
  | .error e =>
      { recOut := inner.1, err := some e, stderrLines := diag, stored := recs }
  | .ok newId =>
      { recOut := inner.1, err := none, stderrLines := diag,
        stored := (newId, inner.1) :: recs }

/-! ### Helper lemmas about the collection model -/

theorem lookupKey_removeKey_self {α : Type} (l : List (String × α)) (k : String) :
    lookupKey (removeKey l k) k = none := by
  induction l with
  | nil => rfl
  | cons kv t ih =>
      by_cases h : kv.1 = k
      · simpa [removeKey, h] using ih
      · simp [removeKey, lookupKey, h, ih]

theorem lookupKey_removeKey_ne {α : Type} (l : List (String × α)) (k k' : String)
    (h : k' ≠ k) : lookupKey (removeKey l k) k' = lookupKey l k' := by
  have hkk : ¬ k = k' := fun hh => h hh.symm
  induction l with
  | nil => rfl
  | cons kv t ih =>
      by_cases hk : kv.1 = k
      · have hne : ¬ kv.1 = k' := by
          rw [hk]
          exact hkk
        simp [removeKey, lookupKey, hk, hne, hkk, ih]
      · by_cases hk' : kv.1 = k'
        · simp [removeKey, lookupKey, hk, hk', h]
        · simp [removeKey, lookupKey, hk, hk', ih]

theorem lookupKey_cons_self {α : Type} (l : List (String × α)) (k : String) (v : α) :
    lookupKey ((k, v) :: l) k = some v := by
  simp [lookupKey]

theorem lookupKey_setKey_self {α : Type} (l : List (String × α)) (k : String) (v : α) :
    lookupKey (setKey l k v) k = some v := by
  simp [setKey, lookupKey]

theorem lookupKey_setKey_ne {α : Type} (l : List (String × α)) (k k' : String) (v : α)
    (h : k' ≠ k) : lookupKey (setKey l k v) k' = lookupKey l k' := by
  have hne : ¬ k = k' := fun hh => h hh.symm
  simp [setKey, lookupKey, hne, lookupKey_removeKey_ne l k k' h]

/-! ### Concrete fixtures used by witnesses and counterexamples -/

/-- A sample poke document: due (`date_to_send = 2`) and already expired
(`expiry = 3`) relative to the sample clock `now = 5`. -/
def samplePoke : Poke :=
  { ID := "", Tunnel := "sms", To := "+15551234567", Subject := "", Body := "hi",
    DateToSend := 2, Expiry := 3 }

/-- A sample store holding `samplePoke` under the document key `p1`. -/
def sampleStore : StoreState :=
  { pokes := [("p1", samplePoke)], archived := [], records := [] }

/-- A sample audit record. -/
def sampleRecord : Record :=
  { MessageID := "p1", ID := "", Status := StatusQueued, TimeStamp := 4 }

/-- A sample provider exception (Twilio error 21211, invalid to-number). -/
def sampleException : TwilioException :=
  { Status := 400, Message := "the to number is not a valid phone number",
    Code := 21211, MoreInfo := "https://www.twilio.com/docs/errors/21211" }

/-- A wrapped tunnel whose delivery always fails with a transport error. -/
def failingSend : Poke → Record × Option SendErr := fun p =>
  ({ MessageID := p.ID, ID := "", Status := StatusError, TimeStamp := 5 },
    some (.goErr (.other "connection refused")))

/-! ### Claims about `Archive` -/

/-- C1: `Archive(id)` is all-or-nothing: within the one transaction it
reads the poke by id (failing with a NotFound-flavored store error when
absent), persists the Archived Poke and deletes the original; after the
call either the original poke is absent and an archived document with
that id exists, or on any failure neither side effect occurred and the
state is unchanged. -/
theorem archive_all_or_nothing (s : StoreState) (now : Int) (id : String) :
    (∀ e, (Archive s now id).1 = .error e → (Archive s now id).2 = s) ∧
    (lookupKey s.pokes id = none →
      ∃ e, (Archive s now id).1 = .error e ∧ e.isNotFound = true) ∧
    (∀ a, (Archive s now id).1 = .ok a →
      lookupKey (Archive s now id).2.pokes id = none ∧
      lookupKey (Archive s now id).2.archived id = some a) := by
  refine ⟨?_, ?_, ?_⟩
  · intro e he
    unfold Archive at he ⊢
    cases hp : lookupKey s.pokes id with
    | none => simp [hp]
    | some p =>
        cases hb : lookupKey s.archived id with
        | none => simp [hp, hb] at he
        | some b => simp [hp, hb]
  · intro hp
    unfold Archive
    simp [hp, NotifyErr.isNotFound]
  · intro a ha
    unfold Archive at ha ⊢
    cases hp : lookupKey s.pokes id with
    | none => simp [hp] at ha
    | some p =>
        cases hb : lookupKey s.archived id with
        | some b => simp [hp, hb] at ha
        | none =>
            simp only [hp, hb] at ha ⊢
            simp only [Except.ok.injEq] at ha
            subst ha
            exact ⟨lookupKey_removeKey_self _ _, lookupKey_cons_self _ _ _⟩

/-- C1 witness: archiving `p1` from the sample store removes the poke
document and creates the archived document under the same id. -/
theorem archive_all_or_nothing_witness :
    lookupKey (Archive sampleStore 5 "p1").2.pokes "p1" = none ∧
    lookupKey (Archive sampleStore 5 "p1").2.archived "p1" =
      some { ID := "", Tunnel := "sms", To := "+15551234567", Expired := true } :=
  (archive_all_or_nothing sampleStore 5 "p1").2.2
    { ID := "", Tunnel := "sms", To := "+15551234567", Expired := true } rfl

/-- C2: the expired flag of the archived poke is the wall-clock
comparison at archive time: `Expired = now.After(p.Expiry)` for the
clock value `now` read when `Archive` is invoked, whatever the state of
any earlier listing. -/
theorem archive_expired_at_archive_time (s : StoreState) (now : Int) (id : String)
    (p : Poke) (hp : lookupKey s.pokes id = some p)
    (ha : lookupKey s.archived id = none) :
    ∃ a, (Archive s now id).1 = .ok a ∧ a.Expired = timeAfter now p.Expiry := by
  unfold Archive
  rw [hp, ha]
  exact ⟨_, rfl, rfl⟩

/-- C2 witness: the sample poke's expiry (3) is already past at archive
time (5), so the archived copy is flagged expired. -/
theorem archive_expired_at_archive_time_witness :
    ∃ a, (Archive sampleStore 5 "p1").1 = .ok a ∧ a.Expired = true := by
  obtain ⟨a, h1, h2⟩ :=
    archive_expired_at_archive_time sampleStore 5 "p1" samplePoke rfl rfl
  refine ⟨a, h1, ?_⟩
  rw [h2]
  decide

/-- C6 counterexample: archiving `p1` succeeds, yet the returned
Archived Poke value carries the empty identifier, not `p1` — the
identifier is preserved only as the archive document's key. -/
theorem archive_returned_id_cex :
    (Archive sampleStore 5 "p1").1 =
      .ok { ID := "", Tunnel := "sms", To := "+15551234567", Expired := true } ∧
    ("" : String) ≠ "p1" := ⟨rfl, by decide⟩

/-- C6 amended: archival preserves the identifier as the archive
document's key (the archived document is stored under the original id),
but the returned Archived Poke value's ID field is left at the empty
zero value rather than set to the id. -/
theorem archive_key_preserved_value_id_empty (s : StoreState) (now : Int) (id : String)
    (a : ArchivedPoke) (h : (Archive s now id).1 = .ok a) :
    lookupKey (Archive s now id).2.archived id = some a ∧ a.ID = "" := by
  unfold Archive at h ⊢
  cases hp : lookupKey s.pokes id with
  | none => simp [hp] at h
  | some p =>
      cases hb : lookupKey s.archived id with
      | some b => simp [hp, hb] at h
      | none =>
          simp only [hp, hb] at h ⊢
          simp only [Except.ok.injEq] at h
          subst h
          exact ⟨lookupKey_cons_self _ _ _, rfl⟩

/-- C6 amended witness: at the sample store, the archived document sits
under the key `p1` while the returned value's ID field is empty. -/
theorem archive_key_preserved_value_id_empty_witness :
    lookupKey (Archive sampleStore 5 "p1").2.archived "p1" =
      some { ID := "", Tunnel := "sms", To := "+15551234567", Expired := true } ∧
    ({ ID := "", Tunnel := "sms", To := "+15551234567", Expired := true } : ArchivedPoke).ID = "" :=
  archive_key_preserved_value_id_empty sampleStore 5 "p1"
    { ID := "", Tunnel := "sms", To := "+15551234567", Expired := true } rfl

/-! ### Claims about the selection query and the other store operations -/

/-- C5: `ListToSend` returns exactly the pokes whose `date_to_send` is
strictly before the current time (a poke with `date_to_send = now` is
excluded), capped at 1000 results; expiry plays no role in the
predicate, so a poke that is due is included whatever its expiry —
including already-expired pokes. -/
theorem listToSend_characterization (s : StoreState) (now : Int) :
    (∀ q ∈ ListToSend s now, q.DateToSend < now) ∧
    (ListToSend s now).length ≤ 1000 ∧
    ((s.pokes.filter (fun kv => decide (kv.2.DateToSend < now))).length ≤ 1000 →
      ∀ k p, (k, p) ∈ s.pokes → p.DateToSend < now →
        { p with ID := k } ∈ ListToSend s now) := by
  refine ⟨?_, ?_, ?_⟩
  · intro q hq
    unfold ListToSend at hq
    obtain ⟨kv, hkv, rfl⟩ := List.mem_map.mp hq
    have hmem := List.take_subset 1000 _ hkv
    have := (List.mem_filter.mp hmem).2
    exact of_decide_eq_true this
  · unfold ListToSend
    rw [List.length_map, List.length_take]
    exact min_le_left _ _
  · intro hle k p hmem hlt
    unfold ListToSend
    rw [List.take_of_length_le hle]
    exact List.mem_map_of_mem _ (List.mem_filter.mpr ⟨hmem, decide_eq_true hlt⟩)

/-- C5 witness: the sample poke is due (2 < 5) and already expired
(3 < 5) yet is returned by `ListToSend`; the cap hypothesis holds since
only one poke is stored. -/
theorem listToSend_characterization_witness :
    { samplePoke with ID := "p1" } ∈ ListToSend sampleStore 5 :=
  (listToSend_characterization sampleStore 5).2.2 (by decide) "p1" samplePoke
    (by simp [sampleStore]) (by decide)

/-- C8: `Update(poke)` verifies in the same transaction that the target
id exists: when absent it fails with a NotFound-flavored store error and
the store is unchanged; when present the full document at that id is
replaced by the new poke's data (no partial-field update) and every
other key is untouched. -/
theorem update_read_before_write (s : StoreState) (p : Poke) :
    (lookupKey s.pokes p.ID = none →
      (∃ e, (Update s p).1 = .error e ∧ e.isNotFound = true) ∧ (Update s p).2 = s) ∧
    (∀ q, lookupKey s.pokes p.ID = some q →
      (Update s p).1 = .ok p ∧
      lookupKey (Update s p).2.pokes p.ID = some { p with ID := "" } ∧
      (∀ k, k ≠ p.ID → lookupKey (Update s p).2.pokes k = lookupKey s.pokes k)) := by
  constructor
  · intro hp
    unfold Update
    rw [hp]
    exact ⟨⟨_, rfl, rfl⟩, rfl⟩
  · intro q hq
    unfold Update
    rw [hq]
    refine ⟨rfl, lookupKey_setKey_self _ _ _, ?_⟩
    intro k hk
    exact lookupKey_setKey_ne s.pokes p.ID k _ hk

/-- C8 witness: updating the existing poke `p1` replaces its stored
document in full. -/
theorem update_read_before_write_witness :
    (Update sampleStore { samplePoke with ID := "p1", Body := "edited" }).1 =
      .ok { samplePoke with ID := "p1", Body := "edited" } ∧
    lookupKey
        (Update sampleStore { samplePoke with ID := "p1", Body := "edited" }).2.pokes
        "p1" =
      some { samplePoke with ID := "", Body := "edited" } :=
  let h := (update_read_before_write sampleStore
    { samplePoke with ID := "p1", Body := "edited" }).2 samplePoke rfl
  ⟨h.1, h.2.1⟩

/-- C7 counterexample: a failing `CreateRecord` hands the underlying
cause back raw — the returned error is not a `firePokeStoreErr`
wrapper. -/
theorem createRecord_unwrapped_cex :
    (CreateRecord sampleStore (.error (.other "rpc error: unavailable")) sampleRecord).1 =
      .error (.go (.other "rpc error: unavailable")) ∧
    NotifyErr.isWrapped (.go (.other "rpc error: unavailable")) = false := ⟨rfl, rfl⟩

/-- C7 amended: every failing store operation except `CreateRecord`
returns an error wrapped with the operation name and the offending
identifier (shown here for `Update`, `Get` and `Archive`); `CreateRecord`
preserves the underlying cause but returns it unwrapped. -/
theorem store_error_wrapping (s : StoreState) (p : Poke) (now : Int) (id : String)
    (r : Record) (cause : GoErr) :
    (∀ e, (Update s p).1 = .error e →
      ∃ fe, e = .store fe ∧ fe.errFunc = "update" ∧ fe.whereId = p.ID) ∧
    (∀ e, GetOne s id = .error e →
      ∃ fe, e = .store fe ∧ fe.errFunc = "get" ∧ fe.whereId = id) ∧
    (∀ e, (Archive s now id).1 = .error e →
      ∃ fe, e = .store fe ∧ fe.errFunc = "archive" ∧ fe.whereId = id) ∧
    (CreateRecord s (.error cause) r).1 = .error (.go cause) := by
  refine ⟨?_, ?_, ?_, rfl⟩
  · intro e he
    unfold Update at he
    cases hp : lookupKey s.pokes p.ID with
    | none =>
        rw [hp] at he
        simp only [Except.error.injEq] at he
        exact ⟨_, he.symm, rfl, rfl⟩
    | some q => rw [hp] at he; simp at he
  · intro e he
    unfold GetOne at he
    cases hp : lookupKey s.pokes id with
    | none =>
        rw [hp] at he
        simp only [Except.error.injEq] at he
        exact ⟨_, he.symm, rfl, rfl⟩
    | some q => rw [hp] at he; simp at he
  · intro e he
    unfold Archive at he
    cases hp : lookupKey s.pokes id with
    | none =>
        rw [hp] at he
        simp only [Except.error.injEq] at he
        exact ⟨_, he.symm, rfl, rfl⟩
    | some q =>
        cases hb : lookupKey s.archived id with
        | none => rw [hp, hb] at he; simp at he
        | some b =>
            rw [hp, hb] at he
            simp only [Except.error.injEq] at he
            exact ⟨_, he.symm, rfl, rfl⟩

/-- C7 amended witness: a failing `Update` on the empty-keyed sample
poke is wrapped with operation and id, while a failing `CreateRecord`
returns its cause raw. -/
theorem store_error_wrapping_witness :
    (∃ fe, (NotifyErr.store ⟨.notFound "document not found", "update", "nope"⟩) = .store fe ∧
      fe.errFunc = "update" ∧ fe.whereId = "nope") ∧
    (CreateRecord sampleStore (.error (.other "rpc error: unavailable")) sampleRecord).1 =
      .error (.go (.other "rpc error: unavailable")) :=
  let h := store_error_wrapping sampleStore { samplePoke with ID := "nope" } 5 "x"
    sampleRecord (.other "rpc error: unavailable")
  ⟨h.1 (.store ⟨.notFound "document not found", "update", "nope"⟩) rfl, h.2.2.2⟩

/-! ### Claims about the SMS tunnel and the logging wrapper -/

/-- C4 counterexample: on a provider exception the SMS tunnel stores the
exception's MoreInfo string — a provider-specific URL outside the closed
engine vocabulary — in the Record's Status field. -/
theorem sms_status_leak_cex :
    (SMSTunnel.Send (.exception sampleException) 5 { samplePoke with ID := "p1" }).1.Status =
      "https://www.twilio.com/docs/errors/21211" ∧
    "https://www.twilio.com/docs/errors/21211" ∉ statusVocabulary := by
  exact ⟨rfl, by decide⟩

/-- C4 amended: the SMS tunnel stores an engine-vocabulary status only on
the local-error path (Error); on a provider exception it stores the
exception's MoreInfo string and on a provider response it stores the
provider's status string verbatim, so provider-specific strings do reach
the stored status field. -/
theorem sms_status_mapping (now : Int) (p : Poke) (e : GoErr) (ex : TwilioException)
    (resp : SmsResponse) :
    (SMSTunnel.Send (.transportErr e) now p).1.Status = StatusError ∧
    (SMSTunnel.Send (.exception ex) now p).1.Status = ex.MoreInfo ∧
    (SMSTunnel.Send (.success resp) now p).1.Status = resp.Status := by
  refine ⟨rfl, rfl, ?_⟩
  simp only [SMSTunnel.Send]
  split <;> rfl

/-- C10: when the provider call succeeds but parsing the provider's
update timestamp fails, the Record carries the provider's reported
status with the current time as fallback timestamp, while the returned
error is the non-nil parse error — a successful delivery paired with a
non-nil error. -/
theorem sms_parse_failure_nonnil_error (resp : SmsResponse) (now : Int) (p : Poke)
    (e : GoErr) (hp : resp.dateUpdateAsTime = .error e) :
    (SMSTunnel.Send (.success resp) now p).1.Status = resp.Status ∧
    (SMSTunnel.Send (.success resp) now p).1.TimeStamp = now ∧
    (SMSTunnel.Send (.success resp) now p).2 = some (.goErr e) := by
  simp only [SMSTunnel.Send]
  rw [hp]
  exact ⟨rfl, rfl, rfl⟩

/-- C10 witness: a provider response with status `sent` and an
unparseable update timestamp yields that status, the fallback timestamp,
and a non-nil returned error. -/
theorem sms_parse_failure_nonnil_error_witness :
    (SMSTunnel.Send
        (.success { Status := "sent", dateUpdateAsTime := .error (.parseFail "bad date") })
        5 { samplePoke with ID := "p1" }).1.Status = "sent" ∧
    (SMSTunnel.Send
        (.success { Status := "sent", dateUpdateAsTime := .error (.parseFail "bad date") })
        5 { samplePoke with ID := "p1" }).1.TimeStamp = 5 ∧
    (SMSTunnel.Send
        (.success { Status := "sent", dateUpdateAsTime := .error (.parseFail "bad date") })
        5 { samplePoke with ID := "p1" }).2 = some (.goErr (.parseFail "bad date")) :=
  sms_parse_failure_nonnil_error
    { Status := "sent", dateUpdateAsTime := .error (.parseFail "bad date") }
    5 { samplePoke with ID := "p1" } (.parseFail "bad date") rfl

/-- C3 counterexample: with a wrapped tunnel whose delivery fails and a
record write that commits, `LogWrapper.Send` returns a nil error; with a
failing record write it returns that store error — the returned error
reflects the record-persistence outcome, not the delivery outcome. -/
theorem logwrapper_error_reflects_persistence_cex :
    (failingSend { samplePoke with ID := "p1" }).2 =
      some (.goErr (.other "connection refused")) ∧
    (LogWrapper.Send failingSend (.ok "r1") [] { samplePoke with ID := "p1" }).err = none ∧
    (LogWrapper.Send failingSend (.error (.other "store down")) []
        { samplePoke with ID := "p1" }).err = some (.other "store down") :=
  ⟨rfl, rfl, rfl⟩

/-- C3 amended: the asymmetry runs the other way round: the wrapped
channel's send failure is written to the diagnostic stream and does not
fail the call (nil error whenever the record write commits), while a
failure to persist the Audit Record is the error propagated to the
caller — the error returned by `LogWrapper.Send` reflects the
record-persistence outcome, not the delivery outcome. -/
theorem logwrapper_error_asymmetry (innerSend : Poke → Record × Option SendErr)
    (createOutcome : Except GoErr String) (recs : List (String × Record)) (p : Poke) :
    (∀ e, (innerSend p).2 = some e →
      SendErr.errString e ∈ (LogWrapper.Send innerSend createOutcome recs p).stderrLines) ∧
    (∀ newId, createOutcome = .ok newId →
      (LogWrapper.Send innerSend createOutcome recs p).err = none) ∧
    (∀ ce, createOutcome = .error ce →
      (LogWrapper.Send innerSend createOutcome recs p).err = some ce) := by
  refine ⟨?_, ?_, ?_⟩
  · intro e he
    simp only [LogWrapper.Send]
    rw [he]
    cases createOutcome <;> simp
  · intro newId hc
    simp only [LogWrapper.Send]
    rw [hc]
  · intro ce hc
    simp only [LogWrapper.Send]
    rw [hc]

/-- C3 amended witness: the failing delivery's error string ends up on
stderr while the returned error is nil. -/
theorem logwrapper_error_asymmetry_witness :
    SendErr.errString (.goErr (.other "connection refused")) ∈
      (LogWrapper.Send failingSend (.ok "r1") [] { samplePoke with ID := "p1" }).stderrLines ∧
    (LogWrapper.Send failingSend (.ok "r1") [] { samplePoke with ID := "p1" }).err = none :=
  let h := logwrapper_error_asymmetry failingSend (.ok "r1") [] { samplePoke with ID := "p1" }
  ⟨h.1 (.goErr (.other "connection refused")) rfl, h.2.1 "r1" rfl⟩

/-- C9: when the wrapped channel's Send fails but the transactional
record write succeeds, `LogWrapper.Send` returns a nil error and the
delivery failure appears only on the standard-error stream; when the
record write itself fails, that failure is the error the caller
receives. -/
theorem logwrapper_send_error_swallowed (innerSend : Poke → Record × Option SendErr)
    (recs : List (String × Record)) (p : Poke) (e : SendErr) (newId : String)
    (ce : GoErr) (hf : (innerSend p).2 = some e) :
    (LogWrapper.Send innerSend (.ok newId) recs p).err = none ∧
    (LogWrapper.Send innerSend (.ok newId) recs p).stderrLines = [SendErr.errString e] ∧
    (LogWrapper.Send innerSend (.error ce) recs p).err = some ce := by
  simp [LogWrapper.Send, hf]

/-- C9 witness: at the failing sample tunnel, a committing record write
yields a nil returned error with the delivery error on stderr, while a
failing record write is returned to the caller. -/
theorem logwrapper_send_error_swallowed_witness :
    (LogWrapper.Send failingSend (.ok "r1") [] { samplePoke with ID := "p1" }).err = none ∧
    (LogWrapper.Send failingSend (.ok "r1") [] { samplePoke with ID := "p1" }).stderrLines =
      [SendErr.errString (.goErr (.other "connection refused"))] ∧
    (LogWrapper.Send failingSend (.error (.other "store down")) []
        { samplePoke with ID := "p1" }).err = some (.other "store down") :=
  logwrapper_send_error_swallowed failingSend [] { samplePoke with ID := "p1" }
    (.goErr (.other "connection refused")) "r1" (.other "store down") rfl

end Notify
